import Mathlib

/-!
# SimplyTrade browser client: a shallow embedding

The three page controllers of the repository (`public/script.js`,
`public/profile-script.js`, `frontend/landing-script.js`) are embedded as
state-passing functions on a `Page` record: local storage, the current
location, the `innerHTML`/`textContent`/`className` of the elements the
scripts touch, the network requests issued, the timers scheduled and a log
of the functions invoked.

Conventions of the embedding:

* a JS template literal is a list of segments (`Seg.lit` for the static
  text between substitutions, `Seg.sub` for a substituted value); the
  string assigned to `innerHTML` is the concatenation of the segments;
* JSON numbers are rationals; how the browser prints, parses and formats
  them (`toFixed`, `toLocaleString`, `parseInt`, ...) is supplied by a
  `Host` record, since floating point and locale data are outside the
  embedding;
* an `async` function is split at its `await`s: the outcome of each awaited
  `fetch` is an argument of the function that embeds it.
-/

namespace SimplyTrade

/-! ## Values -/

/-- JSON numbers. -/
abbrev Num := ℚ

/-- A parsed JSON value, as returned by `response.json()`. -/
inductive Json where
  | null : Json
  | bool (b : Bool) : Json
  | num (n : Num) : Json
  | str (s : String) : Json
  | arr (items : List Json) : Json
  /-- An object: its own properties, each key once. -/
  | obj (fields : List (String × Json)) : Json

/-- A thrown JS exception; only its `message` is ever read by the scripts. -/
structure JsError where
  message : String
deriving DecidableEq, Repr

/-- What the browser supplies: the host name of the page, number and date
formatting, case conversion, number parsing, and the text of the engine's
`TypeError`s. -/
structure Host where
  hostname : String
  /-- `Number.prototype.toFixed(2)`. -/
  toFixed2 : Num → String
  /-- The string conversion of a number. -/
  numToString : Num → String
  /-- The `formatDate` helper: `new Date(s).toLocaleString('en-IN', ...)`. -/
  formatDate : String → String
  toUpperCase : String → String
  toLowerCase : String → String
  /-- `parseInt(s)`; `none` is `NaN`. -/
  parseInt : String → Option Num
  /-- `parseFloat(s)`; `none` is a result that is not a finite number
  (`NaN`, or an infinity). -/
  parseFloat : String → Option Num
  /-- Message of the `TypeError` raised by reading property `key` of `null`. -/
  nullReadMessage : String → String
  /-- Message of the `TypeError` raised when an object cannot be converted
  to a primitive value. -/
  toPrimitiveMessage : String
  /-- Message of the `TypeError` raised by calling the named non-function. -/
  notFunctionMessage : String → String

/-- `API_BASE_URL` (the first statement of each of the three scripts). -/
def API_BASE_URL (host : Host) : String :=
  if host.hostname = "localhost" then "http://localhost:8000/api/v1" else "/api/v1"

/-- JS truthiness of a JSON value. -/
def Json.truthy : Json → Bool
  | .null => false
  | .bool b => b
  | .num n => n != 0
  | .str s => s != ""
  | .arr _ => true
  | .obj _ => true

/-- Own-property lookup in a parsed JSON object. -/
def lookupField (key : String) : List (String × Json) → Option Json
  | [] => none
  | (k, v) :: rest => if k = key then some v else lookupField key rest

/-- The expression `value.key` for a parsed JSON `value` and one of the keys
the scripts read (`detail`, `id`, `name`, `email`), none of which is a
built-in property of a string, number, boolean or array: `none` is
`undefined`, and reading a property of `null` throws. -/
def Json.getProp (host : Host) (key : String) : Json → Except JsError (Option Json)
  | .null => .error ⟨host.nullReadMessage key⟩
  | .obj fields => .ok (lookupField key fields)
  | _ => .ok none

/-- `Array.prototype.join(sep)` on strings. -/
def joinWith (sep : String) : List String → String
  | [] => ""
  | [s] => s
  | s :: rest => s ++ sep ++ joinWith sep rest

mutual
/-- The JS string conversion (`ToString`) of a parsed JSON value. An array
converts as `join(",")`, a plain object as `[object Object]`; an object with
an own `toString` property (which parsed JSON cannot make callable, nor can
it then reach a usable `valueOf`) throws a `TypeError`. -/
def Json.toStr (host : Host) : Json → Except JsError String
  | .null => .ok "null"
  | .bool b => .ok (if b then "true" else "false")
  | .num n => .ok (host.numToString n)
  | .str s => .ok s
  | .arr items => (Json.elemStrs host items).map (joinWith ",")
  | .obj fields =>
      match lookupField "toString" fields with
      | some _ => .error ⟨host.toPrimitiveMessage⟩
      | none => .ok "[object Object]"
/-- The strings `join` concatenates: `null` elements give the empty string. -/
def Json.elemStrs (host : Host) : List Json → Except JsError (List String)
  | [] => .ok []
  | .null :: rest => (Json.elemStrs host rest).map ("" :: ·)
  | x :: rest =>
      match Json.toStr host x with
      | .error e => .error e
      | .ok s => (Json.elemStrs host rest).map (s :: ·)
end

/-- `ToString` of a possibly `undefined` value. -/
def toStrU (host : Host) : Option Json → Except JsError String
  | none => .ok "undefined"
  | some j => j.toStr host

/-! ## Template literals -/

/-- One segment of a template literal. -/
inductive Seg where
  | lit (s : String) : Seg
  | sub (s : String) : Seg
deriving DecidableEq, Repr

/-- A template literal (or a plain string literal: a single `lit`). -/
abbrev Template := List Seg

/-- The text of a segment. -/
def Seg.text : Seg → String
  | .lit s => s
  | .sub s => s

/-- The string a template literal evaluates to. -/
def Template.render (t : Template) : String :=
  String.join (t.map Seg.text)

/-- Number of positions of `s` at which `pat` occurs. -/
def countOcc (pat : List Char) : List Char → Nat
  | [] => 0
  | c :: cs => (if pat.isPrefixOf (c :: cs) then 1 else 0) + countOcc pat cs

/-- Number of occurrences of `pat` in the static text of a template. -/
def Template.countLit (pat : String) : Template → Nat
  | [] => 0
  | .lit s :: rest => countOcc pat.toList s.toList + Template.countLit pat rest
  | .sub _ :: rest => Template.countLit pat rest

/-! ## Data model -/

/-- An element of the `/instruments` array. -/
structure Instrument where
  symbol : String
  exchange : String
  instrument_type : String
  last_traded_price : Num

/-- An element of the `/orders` array; `price` is `null` for market orders. -/
structure Order where
  id : Num
  symbol : String
  order_type : String
  order_style : String
  quantity : Num
  price : Option Num
  status : String
  created_at : String

/-- An element of the `/trades` array. -/
structure Trade where
  id : Num
  order_id : Num
  symbol : String
  order_type : String
  quantity : Num
  price : Num
  executed_at : String

/-- An element of the `/portfolio` array. -/
structure Position where
  symbol : String
  quantity : Num
  average_price : Num
  current_value : Num

/-! ## Page state -/

/-- The named functions whose invocations are logged. -/
inductive Fn where
  | loadInstruments | loadOrders | loadTrades | loadPortfolio
  | displayInstruments | displayOrders | displayTrades | displayPortfolio
  | setupEventListeners | displayUserInfo | setupTabs
deriving DecidableEq, Repr

/-- The object `handleOrderSubmit` serialises; for `quantity` and the inner
option of `price`, `none` is a number that is not finite (`NaN`, or an
infinity); the outer `none` of `price` is `null`. -/
structure OrderData where
  symbol : String
  order_type : String
  order_style : String
  quantity : Option Num
  price : Option (Option Num)

/-- The object passed to `JSON.stringify` as the body of a request. -/
inductive Payload where
  | order (data : OrderData) : Payload
  | login (email password : String) : Payload
  | register (name email password : String) : Payload

/-- A call of `fetch`. -/
structure Request where
  method : String
  url : String
  headers : List (String × String)
  body : Option Payload

/-- The body of a timer callback. -/
inductive Callback where
  /-- Invoke the listed functions, in order. -/
  | invoke (fns : List Fn) : Callback
  /-- Reset the message element `id` (`className = 'message'`, empty text). -/
  | clearMessage (id : String) : Callback
  /-- Assign `window.location.href`. -/
  | navigate (url : String) : Callback
deriving DecidableEq, Repr

/-- A pending `setTimeout(callback, delay)`. -/
structure Timer where
  delay : Nat
  callback : Callback
deriving DecidableEq, Repr

/-- The `localStorage` of the origin: key/value pairs, first match wins. -/
abbrev Storage := List (String × String)

/-- `localStorage.getItem(key)`; `none` is `null`. -/
def getItem (key : String) : Storage → Option String
  | [] => none
  | (k, v) :: rest => if k = key then some v else getItem key rest

/-- `localStorage.removeItem(key)`. -/
def removeItem (key : String) (s : Storage) : Storage :=
  s.filter (fun kv => kv.1 != key)

/-- `localStorage.setItem(key, value)`. -/
def setItem (key value : String) (s : Storage) : Storage :=
  (key, value) :: removeItem key s

/-- Everything the scripts read or write. -/
structure Page where
  storage : Storage
  /-- `window.location.href`. -/
  href : String
  /-- `innerHTML` of the element with the given id. -/
  innerHTML : String → String
  /-- `textContent` of the element with the given id. -/
  textContent : String → String
  /-- `className` of the element with the given id. -/
  className : String → String
  /-- Number of `th` elements of the table enclosing the given `tbody`. -/
  thCount : String → Nat
  /-- The global `currentInstruments` of `script.js`. -/
  currentInstruments : List Instrument
  /-- Calls of `fetch`, oldest first. -/
  requests : List Request
  /-- Calls of `setTimeout`, oldest first. -/
  timers : List Timer
  /-- Invocations of the functions of `Fn`, oldest first. -/
  calls : List Fn
  /-- Labels passed to `console.error`, oldest first. -/
  console : List String
  /-- Number of calls of `reset()` on the order form. -/
  formResets : Nat

namespace Page

/-- Assignment to `document.getElementById(id).innerHTML`. -/
def setInnerHTML (id html : String) (p : Page) : Page :=
  { p with innerHTML := fun k => if k = id then html else p.innerHTML k }

/-- Assignment to `document.getElementById(id).textContent`. -/
def setTextContent (id text : String) (p : Page) : Page :=
  { p with textContent := fun k => if k = id then text else p.textContent k }

/-- Assignment to `document.getElementById(id).className`. -/
def setClassName (id cls : String) (p : Page) : Page :=
  { p with className := fun k => if k = id then cls else p.className k }

/-- A call of `fetch`. -/
def fetch (r : Request) (p : Page) : Page :=
  { p with requests := p.requests ++ [r] }

/-- A call of `setTimeout`. -/
def setTimeout (cb : Callback) (delay : Nat) (p : Page) : Page :=
  { p with timers := p.timers ++ [⟨delay, cb⟩] }

/-- Entry into one of the logged functions. -/
def logCall (f : Fn) (p : Page) : Page :=
  { p with calls := p.calls ++ [f] }

/-- A call of `console.error`. -/
def consoleError (label : String) (p : Page) : Page :=
  { p with console := p.console ++ [label] }

end Page

/-- The settled value of `response.json()`, together with the status. -/
structure Response (α : Type) where
  status : Nat
  /-- The parsed body; an error when the body is not JSON. -/
  json : Except JsError α

/-- `response.ok`: the status is in the range 200-299. -/
def Response.ok {α : Type} (r : Response α) : Bool :=
  decide (200 ≤ r.status) && decide (r.status ≤ 299)

/-- The outcome of an awaited `fetch`: a rejection or a response. -/
abbrev Fetched (α : Type) := Except JsError (Response α)

/-- The expression `array.map(f).join('')`. -/
def mapJoin {α : Type} (f : α → Template) (items : List α) : String :=
  String.join (items.map (fun x => (f x).render))

/-- The expression `result.detail || fallback` passed to `new Error`, whose
constructor converts it to a string. -/
def errorMessage (host : Host) (fallback : String) (result : Json) : Except JsError String := do
  let detail ← result.getProp host "detail"
  match detail with
  | some d => if d.truthy then d.toStr host else pure fallback
  | none => pure fallback

/-! ## `public/script.js` -/

namespace Script

/-- `handleLogout` (script.js, lines 35-41). -/
def handleLogout (p : Page) : Page :=
  let p := { p with storage := removeItem "isLoggedIn" p.storage }
  let p := { p with storage := removeItem "userEmail" p.storage }
  let p := { p with storage := removeItem "userName" p.storage }
  let p := { p with storage := removeItem "userId" p.storage }
  { p with href := "index.html" }

/-- `getHeaders` (lines 44-50). -/
def getHeaders (p : Page) : List (String × String) :=
  let userEmail :=
    match getItem "userEmail" p.storage with
    | some e => if e ≠ "" then e else "guest@simplytrade.com"
    | none => "guest@simplytrade.com"
  [("Content-Type", "application/json"), ("X-User-Id", userEmail)]

/-- `setupEventListeners` (lines 53-70) registers listeners only. -/
def setupEventListeners (p : Page) : Page :=
  p.logCall .setupEventListeners

/-- The placeholder of `displayInstruments` (line 97). -/
def instrumentsEmpty : Template :=
  [.lit "<tr><td colspan=\"5\" class=\"loading\">No instruments available</td></tr>"]

/-- The row template of `displayInstruments` (lines 101-112). -/
def instrumentRow (host : Host) (inst : Instrument) : Template :=
  [ .lit "\n        <tr>\n            <td><strong>",
    .sub inst.symbol,
    .lit "</strong></td>\n            <td>",
    .sub inst.exchange,
    .lit "</td>\n            <td>",
    .sub inst.instrument_type,
    .lit "</td>\n            <td>₹",
    .sub (host.toFixed2 inst.last_traded_price),
    .lit "</td>\n            <td>\n                <button class=\"btn-small\" onclick=\"quickBuy('",
    .sub inst.symbol,
    .lit "', ",
    .sub (host.numToString inst.last_traded_price),
    .lit ")\">Buy</button>\n                <button class=\"btn-small btn-sell\" onclick=\"quickSell('",
    .sub inst.symbol,
    .lit "', ",
    .sub (host.numToString inst.last_traded_price),
    .lit ")\">Sell</button>\n            </td>\n        </tr>\n    " ]

/-- `displayInstruments` (lines 93-113). -/
def displayInstruments (host : Host) (instruments : List Instrument) (p : Page) : Page :=
  let p := p.logCall .displayInstruments
  if instruments.length = 0 then
    p.setInnerHTML "instruments-body" instrumentsEmpty.render
  else
    p.setInnerHTML "instruments-body" (mapJoin (instrumentRow host) instruments)

/-- The placeholder of `displayOrders` (line 196). -/
def ordersEmpty : Template :=
  [.lit "<tr><td colspan=\"8\" class=\"loading\">No orders yet</td></tr>"]

/-- The expression `order.price ? '₹' + order.price.toFixed(2) : 'Market'`:
`null` and `0` are falsy. -/
def priceCell (host : Host) (price : Option Num) : String :=
  match price with
  | some v => if v ≠ 0 then "₹" ++ host.toFixed2 v else "Market"
  | none => "Market"

/-- The row template of `displayOrders` (lines 200-211). -/
def orderRow (host : Host) (order : Order) : Template :=
  [ .lit "\n        <tr>\n            <td>#",
    .sub (host.numToString order.id),
    .lit "</td>\n            <td><strong>",
    .sub order.symbol,
    .lit "</strong></td>\n            <td class=\"order-",
    .sub (host.toLowerCase order.order_type),
    .lit "\">",
    .sub order.order_type,
    .lit "</td>\n            <td>",
    .sub order.order_style,
    .lit "</td>\n            <td>",
    .sub (host.numToString order.quantity),
    .lit "</td>\n            <td>",
    .sub (priceCell host order.price),
    .lit "</td>\n            <td><span class=\"status status-",
    .sub (host.toLowerCase order.status),
    .lit "\">",
    .sub order.status,
    .lit "</span></td>\n            <td>",
    .sub (host.formatDate order.created_at),
    .lit "</td>\n        </tr>\n    " ]

/-- `displayOrders` (lines 192-212). -/
def displayOrders (host : Host) (orders : List Order) (p : Page) : Page :=
  let p := p.logCall .displayOrders
  if orders.length = 0 then
    p.setInnerHTML "orders-body" ordersEmpty.render
  else
    p.setInnerHTML "orders-body" (mapJoin (orderRow host) orders)

/-- The placeholder of `displayTrades` (line 235). -/
def tradesEmpty : Template :=
  [.lit "<tr><td colspan=\"7\" class=\"loading\">No trades yet</td></tr>"]

/-- The row template of `displayTrades` (lines 239-249). -/
def tradeRow (host : Host) (trade : Trade) : Template :=
  [ .lit "\n        <tr>\n            <td>#",
    .sub (host.numToString trade.id),
    .lit "</td>\n            <td>#",
    .sub (host.numToString trade.order_id),
    .lit "</td>\n            <td><strong>",
    .sub trade.symbol,
    .lit "</strong></td>\n            <td class=\"order-",
    .sub (host.toLowerCase trade.order_type),
    .lit "\">",
    .sub trade.order_type,
    .lit "</td>\n            <td>",
    .sub (host.numToString trade.quantity),
    .lit "</td>\n            <td>₹",
    .sub (host.toFixed2 trade.price),
    .lit "</td>\n            <td>",
    .sub (host.formatDate trade.executed_at),
    .lit "</td>\n        </tr>\n    " ]

/-- `displayTrades` (lines 231-250). -/
def displayTrades (host : Host) (trades : List Trade) (p : Page) : Page :=
  let p := p.logCall .displayTrades
  if trades.length = 0 then
    p.setInnerHTML "trades-body" tradesEmpty.render
  else
    p.setInnerHTML "trades-body" (mapJoin (tradeRow host) trades)

/-- The placeholder of `displayPortfolio` (line 273). -/
def portfolioEmpty : Template :=
  [.lit "<tr><td colspan=\"4\" class=\"loading\">No holdings yet</td></tr>"]

/-- The row template of `displayPortfolio` (lines 277-284). -/
def portfolioRow (host : Host) (item : Position) : Template :=
  [ .lit "\n        <tr>\n            <td><strong>",
    .sub item.symbol,
    .lit "</strong></td>\n            <td>",
    .sub (host.numToString item.quantity),
    .lit "</td>\n            <td>₹",
    .sub (host.toFixed2 item.average_price),
    .lit "</td>\n            <td><strong>₹",
    .sub (host.toFixed2 item.current_value),
    .lit "</strong></td>\n        </tr>\n    " ]

/-- `displayPortfolio` (lines 269-285). -/
def displayPortfolio (host : Host) (portfolio : List Position) (p : Page) : Page :=
  let p := p.logCall .displayPortfolio
  if portfolio.length = 0 then
    p.setInnerHTML "portfolio-body" portfolioEmpty.render
  else
    p.setInnerHTML "portfolio-body" (mapJoin (portfolioRow host) portfolio)

/-- `showMessage` (lines 288-298). -/
def showMessage (type text : String) (p : Page) : Page :=
  let p := p.setClassName "order-message" ("message " ++ type)
  let p := p.setTextContent "order-message" text
  p.setTimeout (.clearMessage "order-message") 5000

/-- The template of `showError` (line 304). -/
def errorRow (colSpan : Nat) (message : String) : Template :=
  [ .lit "<tr><td colspan=\"",
    .sub (toString colSpan),
    .lit "\" class=\"loading\" style=\"color: #e74c3c;\">",
    .sub message,
    .lit "</td></tr>" ]

/-- `showError` (lines 301-305): the column span is the number of header
cells of the enclosing table. -/
def showError (tbodyId message : String) (p : Page) : Page :=
  let colSpan := p.thCount tbodyId
  p.setInnerHTML tbodyId (errorRow colSpan message).render

/-- `loadInstruments` up to its `await fetch(...)` (lines 78-80). -/
def loadInstruments.start (host : Host) (p : Page) : Page :=
  (p.logCall .loadInstruments).fetch
    ⟨"GET", API_BASE_URL host ++ "/instruments", [], none⟩

/-- `loadInstruments` from the settlement of its fetch on (lines 80-89). -/
def loadInstruments.finish (host : Host) (fetched : Fetched (List Instrument))
    (p : Page) : Page :=
  let attempt : Except JsError Page := do
    let response ← fetched
    if ¬ response.ok then throw ⟨"Failed to fetch instruments"⟩
    let instruments ← response.json
    pure (displayInstruments host instruments { p with currentInstruments := instruments })
  match attempt with
  | .ok done => done
  | .error _ =>
      showError "instruments-body" "Failed to load instruments"
        (p.consoleError "Error loading instruments:")

/-- `loadInstruments` (lines 78-90). -/
def loadInstruments (host : Host) (fetched : Fetched (List Instrument)) (p : Page) : Page :=
  loadInstruments.finish host fetched (loadInstruments.start host p)

/-- `loadOrders` up to its `await fetch(...)` (lines 176-180). -/
def loadOrders.start (host : Host) (p : Page) : Page :=
  (p.logCall .loadOrders).fetch
    ⟨"GET", API_BASE_URL host ++ "/orders", getHeaders p, none⟩

/-- `loadOrders` from the settlement of its fetch on (lines 181-188). -/
def loadOrders.finish (host : Host) (fetched : Fetched (List Order)) (p : Page) : Page :=
  let attempt : Except JsError Page := do
    let response ← fetched
    if ¬ response.ok then throw ⟨"Failed to fetch orders"⟩
    let orders ← response.json
    pure (displayOrders host orders p)
  match attempt with
  | .ok done => done
  | .error _ =>
      showError "orders-body" "Failed to load orders" (p.consoleError "Error loading orders:")

/-- `loadOrders` (lines 176-189). -/
def loadOrders (host : Host) (fetched : Fetched (List Order)) (p : Page) : Page :=
  loadOrders.finish host fetched (loadOrders.start host p)

/-- `loadTrades` up to its `await fetch(...)` (lines 215-219). -/
def loadTrades.start (host : Host) (p : Page) : Page :=
  (p.logCall .loadTrades).fetch
    ⟨"GET", API_BASE_URL host ++ "/trades", getHeaders p, none⟩

/-- `loadTrades` from the settlement of its fetch on (lines 220-227). -/
def loadTrades.finish (host : Host) (fetched : Fetched (List Trade)) (p : Page) : Page :=
  let attempt : Except JsError Page := do
    let response ← fetched
    if ¬ response.ok then throw ⟨"Failed to fetch trades"⟩
    let trades ← response.json
    pure (displayTrades host trades p)
  match attempt with
  | .ok done => done
  | .error _ =>
      showError "trades-body" "Failed to load trades" (p.consoleError "Error loading trades:")

/-- `loadTrades` (lines 215-228). -/
def loadTrades (host : Host) (fetched : Fetched (List Trade)) (p : Page) : Page :=
  loadTrades.finish host fetched (loadTrades.start host p)

/-- `loadPortfolio` up to its `await fetch(...)` (lines 253-257). -/
def loadPortfolio.start (host : Host) (p : Page) : Page :=
  (p.logCall .loadPortfolio).fetch
    ⟨"GET", API_BASE_URL host ++ "/portfolio", getHeaders p, none⟩

/-- `loadPortfolio` from the settlement of its fetch on (lines 258-265). -/
def loadPortfolio.finish (host : Host) (fetched : Fetched (List Position)) (p : Page) : Page :=
  let attempt : Except JsError Page := do
    let response ← fetched
    if ¬ response.ok then throw ⟨"Failed to fetch portfolio"⟩
    let portfolio ← response.json
    pure (displayPortfolio host portfolio p)
  match attempt with
  | .ok done => done
  | .error _ =>
      showError "portfolio-body" "Failed to load portfolio"
        (p.consoleError "Error loading portfolio:")

/-- `loadPortfolio` (lines 253-266). -/
def loadPortfolio (host : Host) (fetched : Fetched (List Position)) (p : Page) : Page :=
  loadPortfolio.finish host fetched (loadPortfolio.start host p)

/-- The fields of the order form, as `FormData.get` returns them. -/
structure OrderForm where
  symbol : String
  order_type : String
  order_style : String
  quantity : String
  price : String

/-- The object `orderData` (lines 138-144); the empty string is falsy. -/
def orderData (host : Host) (form : OrderForm) : OrderData :=
  { symbol := host.toUpperCase form.symbol
    order_type := form.order_type
    order_style := form.order_style
    quantity := host.parseInt form.quantity
    price := if form.price ≠ "" then some (host.parseFloat form.price) else none }

/-- `handleOrderSubmit` up to its `await fetch(...)` (lines 134-151). -/
def handleOrderSubmit.start (host : Host) (form : OrderForm) (p : Page) : Page :=
  p.fetch ⟨"POST", API_BASE_URL host ++ "/orders", getHeaders p,
    some (.order (orderData host form))⟩

/-- `handleOrderSubmit` from the settlement of its fetch on (lines 153-172). -/
def handleOrderSubmit.finish (host : Host) (fetched : Fetched Json) (p : Page) : Page :=
  let attempt : Except JsError Page := do
    let response ← fetched
    let result ← response.json
    if ¬ response.ok then
      let message ← errorMessage host "Failed to place order" result
      throw ⟨message⟩
    let id ← result.getProp host "id"
    let idText ← toStrU host id
    let p := showMessage "success" ("Order placed successfully! Order ID: " ++ idText) p
    let p := { p with formResets := p.formResets + 1 }
    pure (p.setTimeout (.invoke [.loadOrders, .loadPortfolio, .loadTrades]) 500)
  match attempt with
  | .ok done => done
  | .error error => showMessage "error" error.message (p.consoleError "Error placing order:")

/-- `handleOrderSubmit` (lines 134-173). -/
def handleOrderSubmit (host : Host) (form : OrderForm) (fetched : Fetched Json)
    (p : Page) : Page :=
  handleOrderSubmit.finish host fetched (handleOrderSubmit.start host form p)

/-- The `DOMContentLoaded` listener registered on `window` (lines 10-17). -/
def windowDOMContentLoaded (p : Page) : Page :=
  let isLoggedIn := getItem "isLoggedIn" p.storage
  if isLoggedIn ≠ some "true" then
    { p with href := "index.html" }
  else
    p

/-- The `DOMContentLoaded` listener registered on `document` (lines 20-32);
each loader runs up to its first `await`. -/
def documentDOMContentLoaded (host : Host) (p : Page) : Page :=
  let p :=
    match getItem "userName" p.storage with
    | some userName => if userName ≠ "" then p.setTextContent "user-name" userName else p
    | none => p
  let p := loadInstruments.start host p
  let p := loadOrders.start host p
  let p := loadTrades.start host p
  let p := loadPortfolio.start host p
  setupEventListeners p

/-- Dispatch of `DOMContentLoaded`: the event targets the document and
bubbles to the window, so the listener on `document` runs first, then the
one on `window`; a `return` ends only the listener it is in. -/
def onDOMContentLoaded (host : Host) (p : Page) : Page :=
  windowDOMContentLoaded (documentDOMContentLoaded host p)

end Script

/-! ## `public/profile-script.js` -/

/-- The parsed body of the `/instruments` response as `loadPortfolio` of
profile-script.js receives it, whatever the status of the response: an
array of instruments, or a JSON value that is not an array (an error
object, say). -/
inductive InstrumentsBody where
  | array (items : List Instrument) : InstrumentsBody
  | other (value : Json) : InstrumentsBody

namespace Profile

/-- The `DOMContentLoaded` listener registered on `window` (lines 7-13). -/
def windowDOMContentLoaded (p : Page) : Page :=
  let isLoggedIn := getItem "isLoggedIn" p.storage
  if isLoggedIn ≠ some "true" then
    { p with href := "landing.html" }
  else
    p

/-- The expression `localStorage.getItem(key) || fallback`. -/
def getItemOr (key fallback : String) (s : Storage) : String :=
  match getItem key s with
  | some v => if v ≠ "" then v else fallback
  | none => fallback

/-- `displayUserInfo` (lines 25-31). -/
def displayUserInfo (p : Page) : Page :=
  let p := p.logCall .displayUserInfo
  let userName := getItemOr "userName" "User" p.storage
  let userEmail := getItemOr "userEmail" "user@example.com" p.storage
  let p := p.setTextContent "profile-name" userName
  p.setTextContent "profile-email" userEmail

/-- `setupTabs` (lines 34-42) registers listeners only. -/
def setupTabs (p : Page) : Page :=
  p.logCall .setupTabs

/-- `getHeaders` (lines 67-73). -/
def getHeaders (p : Page) : List (String × String) :=
  let userEmail := getItemOr "userEmail" "guest@simplytrade.com" p.storage
  [("Content-Type", "application/json"), ("X-User-Id", userEmail)]

/-- The template of `showError` (line 205). -/
def errorRow (colSpan : Nat) (message : String) : Template :=
  [ .lit "<tr><td colspan=\"",
    .sub (toString colSpan),
    .lit "\" class=\"loading\" style=\"color: #e53e3e;\">",
    .sub message,
    .lit "</td></tr>" ]

/-- `showError` (lines 203-206). -/
def showError (tbodyId message : String) (colSpan : Nat) (p : Page) : Page :=
  p.setInnerHTML tbodyId (errorRow colSpan message).render

/-- The placeholder of `displayPortfolio` (line 101). -/
def portfolioEmpty : Template :=
  [.lit "<tr><td colspan=\"5\" class=\"loading\">No holdings yet</td></tr>"]

/-- The expression `instruments.find(i => i.symbol === symbol)`: `none` is
`undefined`; on a value that is not an array the call throws. -/
def findInstrument (host : Host) (symbol : String) :
    InstrumentsBody → Except JsError (Option Instrument)
  | .array items => .ok (items.find? (fun i => i.symbol = symbol))
  | .other .null => .error ⟨host.nullReadMessage "find"⟩
  | .other _ => .error ⟨host.notFunctionMessage "instruments.find"⟩

/-- The body of the callback of `portfolio.map` in `displayPortfolio`
after the lookup (lines 107-121); `instrument` is the result of `find`. -/
def portfolioCells (host : Host) (instrument : Option Instrument) (item : Position) :
    Template :=
  let currentPrice :=
    match instrument with
    | some i => i.last_traded_price
    | none => item.average_price
  let currentValue := item.quantity * currentPrice
  let investedValue := item.quantity * item.average_price
  let pnl := currentValue - investedValue
  let pnlClass := if pnl ≥ 0 then "profit" else "loss"
  [ .lit "\n            <tr>\n                <td><strong>",
    .sub item.symbol,
    .lit "</strong></td>\n                <td>",
    .sub (host.numToString item.quantity),
    .lit "</td>\n                <td>₹",
    .sub (host.toFixed2 item.average_price),
    .lit "</td>\n                <td><strong>₹",
    .sub (host.toFixed2 currentValue),
    .lit "</strong></td>\n                <td class=\"",
    .sub pnlClass,
    .lit "\">",
    .sub (if pnl ≥ 0 then "+" else ""),
    .lit "₹",
    .sub (host.toFixed2 pnl),
    .lit "</td>\n            </tr>\n        " ]

/-- The callback of `portfolio.map` in `displayPortfolio` (lines 105-122). -/
def portfolioRow (host : Host) (instruments : InstrumentsBody) (item : Position) :
    Except JsError Template := do
  let instrument ← findInstrument host item.symbol instruments
  pure (portfolioCells host instrument item)

/-- `displayPortfolio` (lines 97-123); the page is returned also when the
callback of `map` throws. -/
def displayPortfolio (host : Host) (portfolio : List Position) (instruments : InstrumentsBody)
    (p : Page) : Except JsError Unit × Page :=
  let p := p.logCall .displayPortfolio
  if portfolio.length = 0 then
    (.ok (), p.setInnerHTML "portfolio-body" portfolioEmpty.render)
  else
    match portfolio.mapM (portfolioRow host instruments) with
    | .ok rows => (.ok (), p.setInnerHTML "portfolio-body" (String.join (rows.map Template.render)))
    | .error e => (.error e, p)

/-- `loadPortfolio` up to its first `await fetch(...)` (lines 76-80). -/
def loadPortfolio.start (host : Host) (p : Page) : Page :=
  (p.logCall .loadPortfolio).fetch
    ⟨"GET", API_BASE_URL host ++ "/portfolio", getHeaders p, none⟩

/-- `loadPortfolio` from the settlement of its first fetch on (lines 81-93):
`fetched` is the outcome of the `/portfolio` request, `fetchedInstruments`
that of the `/instruments` request, whose `ok` flag is not read. -/
def loadPortfolio.finish (host : Host) (fetched : Fetched (List Position))
    (fetchedInstruments : Fetched InstrumentsBody) (p : Page) : Page :=
  let first : Except JsError (List Position) := do
    let response ← fetched
    if ¬ response.ok then throw ⟨"Failed to fetch portfolio"⟩
    response.json
  match first with
  | .error _ =>
      showError "portfolio-body" "Failed to load portfolio" 5
        (p.consoleError "Error loading portfolio:")
  | .ok portfolio =>
      let p := p.fetch ⟨"GET", API_BASE_URL host ++ "/instruments", [], none⟩
      let second : Except JsError InstrumentsBody := do
        let instrumentsResponse ← fetchedInstruments
        instrumentsResponse.json
      match second with
      | .error _ =>
          showError "portfolio-body" "Failed to load portfolio" 5
            (p.consoleError "Error loading portfolio:")
      | .ok instruments =>
          match displayPortfolio host portfolio instruments p with
          | (.ok _, done) => done
          | (.error _, p) =>
              showError "portfolio-body" "Failed to load portfolio" 5
                (p.consoleError "Error loading portfolio:")

/-- `loadPortfolio` (lines 76-94). -/
def loadPortfolio (host : Host) (fetched : Fetched (List Position))
    (fetchedInstruments : Fetched InstrumentsBody) (p : Page) : Page :=
  loadPortfolio.finish host fetched fetchedInstruments (loadPortfolio.start host p)

/-- The placeholder of `displayOrders` (line 146). -/
def ordersEmpty : Template :=
  [.lit "<tr><td colspan=\"8\" class=\"loading\">No orders yet</td></tr>"]

/-- The expression `order.price ? '₹' + order.price.toFixed(2) : 'Market'`. -/
def priceCell (host : Host) (price : Option Num) : String :=
  match price with
  | some v => if v ≠ 0 then "₹" ++ host.toFixed2 v else "Market"
  | none => "Market"

/-- The row template of `displayOrders` (lines 150-161). -/
def orderRow (host : Host) (order : Order) : Template :=
  [ .lit "\n        <tr>\n            <td>#",
    .sub (host.numToString order.id),
    .lit "</td>\n            <td><strong>",
    .sub order.symbol,
    .lit "</strong></td>\n            <td class=\"order-",
    .sub (host.toLowerCase order.order_type),
    .lit "\">",
    .sub order.order_type,
    .lit "</td>\n            <td>",
    .sub order.order_style,
    .lit "</td>\n            <td>",
    .sub (host.numToString order.quantity),
    .lit "</td>\n            <td>",
    .sub (priceCell host order.price),
    .lit "</td>\n            <td><span class=\"status status-",
    .sub (host.toLowerCase order.status),
    .lit "\">",
    .sub order.status,
    .lit "</span></td>\n            <td>",
    .sub (host.formatDate order.created_at),
    .lit "</td>\n        </tr>\n    " ]

/-- `displayOrders` (lines 142-162). -/
def displayOrders (host : Host) (orders : List Order) (p : Page) : Page :=
  let p := p.logCall .displayOrders
  if orders.length = 0 then
    p.setInnerHTML "orders-body" ordersEmpty.render
  else
    p.setInnerHTML "orders-body" (mapJoin (orderRow host) orders)

/-- `loadOrders` up to its `await fetch(...)` (lines 126-130). -/
def loadOrders.start (host : Host) (p : Page) : Page :=
  (p.logCall .loadOrders).fetch
    ⟨"GET", API_BASE_URL host ++ "/orders", getHeaders p, none⟩

/-- `loadOrders` from the settlement of its fetch on (lines 131-138). -/
def loadOrders.finish (host : Host) (fetched : Fetched (List Order)) (p : Page) : Page :=
  let attempt : Except JsError Page := do
    let response ← fetched
    if ¬ response.ok then throw ⟨"Failed to fetch orders"⟩
    let orders ← response.json
    pure (displayOrders host orders p)
  match attempt with
  | .ok done => done
  | .error _ =>
      showError "orders-body" "Failed to load orders" 8 (p.consoleError "Error loading orders:")

/-- `loadOrders` (lines 126-139). -/
def loadOrders (host : Host) (fetched : Fetched (List Order)) (p : Page) : Page :=
  loadOrders.finish host fetched (loadOrders.start host p)

/-- The placeholder of `displayTrades` (line 185). -/
def tradesEmpty : Template :=
  [.lit "<tr><td colspan=\"7\" class=\"loading\">No trades yet</td></tr>"]

/-- The row template of `displayTrades` (lines 189-199). -/
def tradeRow (host : Host) (trade : Trade) : Template :=
  [ .lit "\n        <tr>\n            <td>#",
    .sub (host.numToString trade.id),
    .lit "</td>\n            <td>#",
    .sub (host.numToString trade.order_id),
    .lit "</td>\n            <td><strong>",
    .sub trade.symbol,
    .lit "</strong></td>\n            <td class=\"order-",
    .sub (host.toLowerCase trade.order_type),
    .lit "\">",
    .sub trade.order_type,
    .lit "</td>\n            <td>",
    .sub (host.numToString trade.quantity),
    .lit "</td>\n            <td>₹",
    .sub (host.toFixed2 trade.price),
    .lit "</td>\n            <td>",
    .sub (host.formatDate trade.executed_at),
    .lit "</td>\n        </tr>\n    " ]

/-- `displayTrades` (lines 181-200). -/
def displayTrades (host : Host) (trades : List Trade) (p : Page) : Page :=
  let p := p.logCall .displayTrades
  if trades.length = 0 then
    p.setInnerHTML "trades-body" tradesEmpty.render
  else
    p.setInnerHTML "trades-body" (mapJoin (tradeRow host) trades)

/-- `loadTrades` up to its `await fetch(...)` (lines 165-169). -/
def loadTrades.start (host : Host) (p : Page) : Page :=
  (p.logCall .loadTrades).fetch
    ⟨"GET", API_BASE_URL host ++ "/trades", getHeaders p, none⟩

/-- `loadTrades` from the settlement of its fetch on (lines 170-177). -/
def loadTrades.finish (host : Host) (fetched : Fetched (List Trade)) (p : Page) : Page :=
  let attempt : Except JsError Page := do
    let response ← fetched
    if ¬ response.ok then throw ⟨"Failed to fetch trades"⟩
    let trades ← response.json
    pure (displayTrades host trades p)
  match attempt with
  | .ok done => done
  | .error _ =>
      showError "trades-body" "Failed to load trades" 7 (p.consoleError "Error loading trades:")

/-- `loadTrades` (lines 165-178). -/
def loadTrades (host : Host) (fetched : Fetched (List Trade)) (p : Page) : Page :=
  loadTrades.finish host fetched (loadTrades.start host p)

/-- The `DOMContentLoaded` listener registered on `document` (lines 16-22);
each loader runs up to its first `await`. -/
def documentDOMContentLoaded (host : Host) (p : Page) : Page :=
  let p := displayUserInfo p
  let p := setupTabs p
  let p := loadPortfolio.start host p
  let p := loadOrders.start host p
  loadTrades.start host p

/-- Dispatch of `DOMContentLoaded`: the listener on `document` runs first,
then the one on `window`. -/
def onDOMContentLoaded (host : Host) (p : Page) : Page :=
  windowDOMContentLoaded (documentDOMContentLoaded host p)

/-- `handleLogout` (lines 221-227). -/
def handleLogout (p : Page) : Page :=
  let p := { p with storage := removeItem "isLoggedIn" p.storage }
  let p := { p with storage := removeItem "userEmail" p.storage }
  let p := { p with storage := removeItem "userName" p.storage }
  let p := { p with storage := removeItem "userId" p.storage }
  { p with href := "index.html" }

end Profile

/-! ## `frontend/landing-script.js` -/

namespace Landing

/-- `showMessage` (lines 118-128). -/
def showMessage (formType type text : String) (p : Page) : Page :=
  let p := p.setClassName (formType ++ "-message") ("message " ++ type)
  let p := p.setTextContent (formType ++ "-message") text
  p.setTimeout (.clearMessage (formType ++ "-message")) 5000

/-- The statement `localStorage.setItem(key, data[prop])`: the value is
converted to a string. -/
def storeProp (host : Host) (key prop : String) (data : Json) (p : Page) :
    Except JsError Page := do
  let value ← data.getProp host prop
  let text ← toStrU host value
  pure { p with storage := setItem key text p.storage }

/-- The `catch` clauses (lines 57-59 and 112-114):
`showMessage(formType, 'error', error.message || fallback)`. -/
def showFailure (formType fallback : String) (error : JsError) (p : Page) : Page :=
  showMessage formType "error" (if error.message ≠ "" then error.message else fallback) p

/-- `handleLogin` up to its `await fetch(...)` (lines 22-35): the two fields
are read and posted; nothing is checked. -/
def handleLogin.start (host : Host) (email password : String) (p : Page) : Page :=
  p.fetch ⟨"POST", API_BASE_URL host ++ "/auth/login",
    [("Content-Type", "application/json")], some (.login email password)⟩

/-- `handleLogin` from the settlement of its fetch on (lines 37-59). -/
def handleLogin.finish (host : Host) (fetched : Fetched Json) (p : Page) : Page :=
  let checked : Except JsError Json := do
    let response ← fetched
    let data ← response.json
    if ¬ response.ok then
      let message ← errorMessage host "Login failed" data
      throw ⟨message⟩
    pure data
  match checked with
  | .error error => showFailure "login" "Login failed. Please try again." error p
  | .ok data =>
  match storeProp host "userId" "id" data p with
  | .error error => showFailure "login" "Login failed. Please try again." error p
  | .ok p =>
  match storeProp host "userName" "name" data p with
  | .error error => showFailure "login" "Login failed. Please try again." error p
  | .ok p =>
  match storeProp host "userEmail" "email" data p with
  | .error error => showFailure "login" "Login failed. Please try again." error p
  | .ok p =>
    let p := { p with storage := setItem "isLoggedIn" "true" p.storage }
    let p := showMessage "login" "success" "Login successful! Redirecting..." p
    p.setTimeout (.navigate "index.html") 1000

/-- `handleLogin` (lines 22-60). -/
def handleLogin (host : Host) (email password : String) (fetched : Fetched Json)
    (p : Page) : Page :=
  handleLogin.finish host fetched (handleLogin.start host email password p)

/-- `handleRegister` after its two checks, up to its `await fetch(...)`
(lines 83-90). -/
def handleRegister.start (host : Host) (name email password : String) (p : Page) : Page :=
  p.fetch ⟨"POST", API_BASE_URL host ++ "/auth/register",
    [("Content-Type", "application/json")], some (.register name email password)⟩

/-- `handleRegister` from the settlement of its fetch on (lines 92-114). -/
def handleRegister.finish (host : Host) (fetched : Fetched Json) (p : Page) : Page :=
  let checked : Except JsError Json := do
    let response ← fetched
    let data ← response.json
    if ¬ response.ok then
      let message ← errorMessage host "Registration failed" data
      throw ⟨message⟩
    pure data
  match checked with
  | .error error => showFailure "register" "Registration failed. Please try again." error p
  | .ok data =>
  match storeProp host "userId" "id" data p with
  | .error error => showFailure "register" "Registration failed. Please try again." error p
  | .ok p =>
  match storeProp host "userName" "name" data p with
  | .error error => showFailure "register" "Registration failed. Please try again." error p
  | .ok p =>
  match storeProp host "userEmail" "email" data p with
  | .error error => showFailure "register" "Registration failed. Please try again." error p
  | .ok p =>
    let p := { p with storage := setItem "isLoggedIn" "true" p.storage }
    let p := showMessage "register" "success" "Account created successfully! Redirecting..." p
    p.setTimeout (.navigate "index.html") 1000

/-- `handleRegister` (lines 63-115): `name`, `email`, `password` and
`confirm` are the values of the four inputs; the empty string is falsy. -/
def handleRegister (host : Host) (name email password confirm : String)
    (fetched : Fetched Json) (p : Page) : Page :=
  if password ≠ confirm then
    showMessage "register" "error" "Passwords do not match!" p
  else if name = "" ∨ email = "" ∨ password = "" then
    showMessage "register" "error" "Please fill in all fields" p
  else
    handleRegister.finish host fetched (handleRegister.start host name email password p)

/-- The `DOMContentLoaded` listener (lines 131-137). -/
def windowDOMContentLoaded (p : Page) : Page :=
  let isLoggedIn := getItem "isLoggedIn" p.storage
  if isLoggedIn = some "true" then
    { p with href := "index.html" }
  else
    p

end Landing

/-- A page on which nothing has happened yet. -/
def Page.blank (storage : Storage) (href : String) : Page :=
  { storage := storage, href := href, innerHTML := fun _ => "", textContent := fun _ => "",
    className := fun _ => "", thCount := fun _ => 0, currentInstruments := [],
    requests := [], timers := [], calls := [], console := [], formResets := 0 }

/-- A sample browser, exact on the integers that occur in the examples. -/
def sampleHost : Host :=
  { hostname := "localhost"
    toFixed2 := fun q => toString q.floor ++ ".00"
    numToString := fun q => toString q.floor
    formatDate := fun s => s
    toUpperCase := String.toUpper
    toLowerCase := String.toLower
    parseInt := fun s => s.toInt?.map (fun i => (i : ℚ))
    parseFloat := fun s => s.toInt?.map (fun i => (i : ℚ))
    nullReadMessage := fun key => "Cannot read properties of null (reading '" ++ key ++ "')"
    toPrimitiveMessage := "Cannot convert object to primitive value"
    notFunctionMessage := fun name => name ++ " is not a function" }

/-! ## The JSON text of a request body -/

/-- The substituted values of a template literal, in order. -/
def Template.subs : Template → List String
  | [] => []
  | .lit _ :: rest => Template.subs rest
  | .sub s :: rest => s :: Template.subs rest

/-! ## Reading the rendered HTML -/

/-- The text after the first occurrence of `pat`. -/
def afterFirst (pat : List Char) : List Char → Option (List Char)
  | [] => none
  | c :: cs => if pat.isPrefixOf (c :: cs) then some ((c :: cs).drop pat.length) else afterFirst pat cs

/-- The value of a run of decimal digits. -/
def digitsValue (ds : List Char) : Nat :=
  ds.foldl (fun acc c => 10 * acc + (c.toNat - 48)) 0

/-- The value of the first `colspan="..."` attribute of an HTML fragment. -/
def colspanOf (html : String) : Option Nat :=
  match afterFirst "colspan=\"".toList html.toList with
  | none => none
  | some rest =>
      let ds := rest.takeWhile Char.isDigit
      if ds ≠ [] ∧ (rest.drop ds.length).head? = some '"' then some (digitsValue ds) else none

/-- The fragment is one row with one cell whose `colspan` is `n`. -/
def IsPlaceholderRow (n : Nat) (html : String) : Prop :=
  countOcc "<tr".toList html.toList = 1 ∧ countOcc "</tr>".toList html.toList = 1 ∧
  countOcc "<td".toList html.toList = 1 ∧ countOcc "</td>".toList html.toList = 1 ∧
  colspanOf html = some n

instance (n : Nat) (html : String) : Decidable (IsPlaceholderRow n html) := by
  unfold IsPlaceholderRow; infer_instance

/-- The awaited `fetch` rejected, or its response is not `ok`. -/
def FetchFailed {α : Type} : Fetched α → Prop
  | .error _ => True
  | .ok response => response.ok = false

/-- The function invocations the timers schedule, each with its delay. -/
def scheduledCalls : List Timer → List (Nat × Fn)
  | [] => []
  | ⟨delay, .invoke fns⟩ :: rest => fns.map (fun f => (delay, f)) ++ scheduledCalls rest
  | _ :: rest => scheduledCalls rest

/-- The four storage keys of the session. -/
def sessionKeys : List String := ["isLoggedIn", "userEmail", "userName", "userId"]

/-- The error text the specification prescribes for a failed order: the
`detail` of the body when that is a non-empty string, and the fallback
otherwise. -/
def specOrderErrorText (result : Json) : String :=
  match result with
  | .obj fields =>
      match lookupField "detail" fields with
      | some (.str s) => if s ≠ "" then s else "Failed to place order"
      | _ => "Failed to place order"
  | _ => "Failed to place order"

/-- The body of a 422 response as a validating server sends it: `detail` is
an array holding one error object. -/
def validationErrorBody : Json :=
  .obj [("detail", .arr [.obj [("loc", .arr [.str "body", .str "quantity"]),
    ("msg", .str "Input should be a valid integer"), ("type", .str "int_parsing")]])]

/-- C2: on an empty array each of the seven renderers sets its table body to
one placeholder row with one cell, whose `colspan` is the number of `<td`
cells of the row template of the same renderer: 5 for instruments, 8 for
orders, 7 for trades, 4 for the portfolio of script.js and 5 for the
portfolio of profile-script.js. -/
theorem renderers_empty_placeholder (host : Host) (p : Page) (prices : InstrumentsBody) :
    (IsPlaceholderRow 5 ((Script.displayInstruments host [] p).innerHTML "instruments-body")
      ∧ ∀ x, (Script.instrumentRow host x).countLit "<td" = 5)
    ∧ (IsPlaceholderRow 8 ((Script.displayOrders host [] p).innerHTML "orders-body")
      ∧ ∀ x, (Script.orderRow host x).countLit "<td" = 8)
    ∧ (IsPlaceholderRow 7 ((Script.displayTrades host [] p).innerHTML "trades-body")
      ∧ ∀ x, (Script.tradeRow host x).countLit "<td" = 7)
    ∧ (IsPlaceholderRow 4 ((Script.displayPortfolio host [] p).innerHTML "portfolio-body")
      ∧ ∀ x, (Script.portfolioRow host x).countLit "<td" = 4)
    ∧ (IsPlaceholderRow 8 ((Profile.displayOrders host [] p).innerHTML "orders-body")
      ∧ ∀ x, (Profile.orderRow host x).countLit "<td" = 8)
    ∧ (IsPlaceholderRow 7 ((Profile.displayTrades host [] p).innerHTML "trades-body")
      ∧ ∀ x, (Profile.tradeRow host x).countLit "<td" = 7)
    ∧ ((Profile.displayPortfolio host [] prices p).1 = .ok ()
      ∧ IsPlaceholderRow 5
        ((Profile.displayPortfolio host [] prices p).2.innerHTML "portfolio-body")
      ∧ ∀ i x, (Profile.portfolioCells host i x).countLit "<td" = 5) := by
  have h1 : (Script.displayInstruments host [] p).innerHTML "instruments-body"
      = Script.instrumentsEmpty.render := rfl
  have h2 : (Script.displayOrders host [] p).innerHTML "orders-body"
      = Script.ordersEmpty.render := rfl
  have h3 : (Script.displayTrades host [] p).innerHTML "trades-body"
      = Script.tradesEmpty.render := rfl
  have h4 : (Script.displayPortfolio host [] p).innerHTML "portfolio-body"
      = Script.portfolioEmpty.render := rfl
  have h5 : (Profile.displayOrders host [] p).innerHTML "orders-body"
      = Profile.ordersEmpty.render := rfl
  have h6 : (Profile.displayTrades host [] p).innerHTML "trades-body"
      = Profile.tradesEmpty.render := rfl
  have h7 : (Profile.displayPortfolio host [] prices p).2.innerHTML "portfolio-body"
      = Profile.portfolioEmpty.render := rfl
  rw [h1, h2, h3, h4, h5, h6, h7]
  exact ⟨⟨by decide, fun _ => rfl⟩, ⟨by decide, fun _ => rfl⟩, ⟨by decide, fun _ => rfl⟩,
    ⟨by decide, fun _ => rfl⟩, ⟨by decide, fun _ => rfl⟩, ⟨by decide, fun _ => rfl⟩,
    rfl, by decide, fun _ _ => rfl⟩

/-! ## The session guard (C3) -/

/-- C3, evaluated on the code: when the stored `isLoggedIn` is absent or is
not `'true'`, the `DOMContentLoaded` listeners of script.js and of
profile-script.js do assign the redirect, and all the same invoke every data
loader and issue its GET: the guard and the initialisation are two separate
listeners, and the `return` of the guard ends the guard only. This holds in
whichever order the two listeners run. -/
theorem session_guard_does_not_stop_loaders (host : Host) (p : Page)
    (h : getItem "isLoggedIn" p.storage ≠ some "true") :
    ((Script.onDOMContentLoaded host p).href = "index.html"
      ∧ (Script.onDOMContentLoaded host p).calls = p.calls ++
          [.loadInstruments, .loadOrders, .loadTrades, .loadPortfolio, .setupEventListeners]
      ∧ (Script.onDOMContentLoaded host p).requests.map (fun r => (r.method, r.url)) =
          p.requests.map (fun r => (r.method, r.url)) ++
            [("GET", API_BASE_URL host ++ "/instruments"), ("GET", API_BASE_URL host ++ "/orders"),
             ("GET", API_BASE_URL host ++ "/trades"), ("GET", API_BASE_URL host ++ "/portfolio")]
      ∧ (Script.documentDOMContentLoaded host (Script.windowDOMContentLoaded p)).requests.length
          = p.requests.length + 4)
    ∧ ((Profile.onDOMContentLoaded host p).href = "landing.html"
      ∧ (Profile.onDOMContentLoaded host p).calls = p.calls ++
          [.displayUserInfo, .setupTabs, .loadPortfolio, .loadOrders, .loadTrades]
      ∧ (Profile.onDOMContentLoaded host p).requests.map (fun r => (r.method, r.url)) =
          p.requests.map (fun r => (r.method, r.url)) ++
            [("GET", API_BASE_URL host ++ "/portfolio"), ("GET", API_BASE_URL host ++ "/orders"),
             ("GET", API_BASE_URL host ++ "/trades")]
      ∧ (Profile.documentDOMContentLoaded host (Profile.windowDOMContentLoaded p)).requests.length
          = p.requests.length + 3) := by
  have hs : ∀ q : Page, q.storage = p.storage → Script.windowDOMContentLoaded q
      = { q with href := "index.html" } := by
    intro q hq
    simp [Script.windowDOMContentLoaded, hq, h]
  have hp : ∀ q : Page, q.storage = p.storage → Profile.windowDOMContentLoaded q
      = { q with href := "landing.html" } := by
    intro q hq
    simp [Profile.windowDOMContentLoaded, hq, h]
  have hds : (Script.documentDOMContentLoaded host p).storage = p.storage := by
    simp only [Script.documentDOMContentLoaded, Script.setupEventListeners,
      Script.loadInstruments.start, Script.loadOrders.start, Script.loadTrades.start,
      Script.loadPortfolio.start, Page.logCall, Page.fetch, Page.setTextContent]
    split <;> [split; skip] <;> rfl
  have hdp : (Profile.documentDOMContentLoaded host p).storage = p.storage := by
    simp [Profile.documentDOMContentLoaded, Profile.displayUserInfo, Profile.setupTabs,
      Profile.loadPortfolio.start, Profile.loadOrders.start, Profile.loadTrades.start,
      Page.logCall, Page.fetch, Page.setTextContent]
  refine ⟨⟨?_, ?_, ?_, ?_⟩, ⟨?_, ?_, ?_, ?_⟩⟩
  · rw [Script.onDOMContentLoaded, hs _ hds]
  · rw [Script.onDOMContentLoaded, hs _ hds]
    simp only [Script.documentDOMContentLoaded, Script.setupEventListeners,
      Script.loadInstruments.start, Script.loadOrders.start, Script.loadTrades.start,
      Script.loadPortfolio.start, Page.logCall, Page.fetch, Page.setTextContent]
    split <;> [split; skip] <;> simp
  · rw [Script.onDOMContentLoaded, hs _ hds]
    simp only [Script.documentDOMContentLoaded, Script.setupEventListeners,
      Script.loadInstruments.start, Script.loadOrders.start, Script.loadTrades.start,
      Script.loadPortfolio.start, Page.logCall, Page.fetch, Page.setTextContent]
    split <;> [split; skip] <;> simp
  · rw [hs p rfl]
    simp only [Script.documentDOMContentLoaded, Script.setupEventListeners,
      Script.loadInstruments.start, Script.loadOrders.start, Script.loadTrades.start,
      Script.loadPortfolio.start, Page.logCall, Page.fetch, Page.setTextContent]
    split <;> [split; skip] <;> simp
  · rw [Profile.onDOMContentLoaded, hp _ hdp]
  · rw [Profile.onDOMContentLoaded, hp _ hdp]
    simp [Profile.documentDOMContentLoaded, Profile.displayUserInfo, Profile.setupTabs,
      Profile.loadPortfolio.start, Profile.loadOrders.start, Profile.loadTrades.start,
      Page.logCall, Page.fetch, Page.setTextContent]
  · rw [Profile.onDOMContentLoaded, hp _ hdp]
    simp [Profile.documentDOMContentLoaded, Profile.displayUserInfo, Profile.setupTabs,
      Profile.loadPortfolio.start, Profile.loadOrders.start, Profile.loadTrades.start,
      Page.logCall, Page.fetch, Page.setTextContent]
  · rw [hp p rfl]
    simp [Profile.documentDOMContentLoaded, Profile.displayUserInfo, Profile.setupTabs,
      Profile.loadPortfolio.start, Profile.loadOrders.start, Profile.loadTrades.start,
      Page.logCall, Page.fetch, Page.setTextContent]

/-- Witness of C3: a first visit, with nothing in local storage. -/
theorem session_guard_does_not_stop_loaders_witness :
    getItem "isLoggedIn" (Page.blank [] "dashboard.html").storage ≠ some "true"
    ∧ (Script.onDOMContentLoaded sampleHost (Page.blank [] "dashboard.html")).href = "index.html"
    ∧ (Script.onDOMContentLoaded sampleHost (Page.blank [] "dashboard.html")).calls =
        [.loadInstruments, .loadOrders, .loadTrades, .loadPortfolio, .setupEventListeners]
    ∧ (Profile.onDOMContentLoaded sampleHost (Page.blank [] "dashboard.html")).calls =
        [.displayUserInfo, .setupTabs, .loadPortfolio, .loadOrders, .loadTrades] :=
  ⟨by decide,
    (session_guard_does_not_stop_loaders sampleHost (Page.blank [] "dashboard.html")
      (by decide)).1.1,
    (session_guard_does_not_stop_loaders sampleHost (Page.blank [] "dashboard.html")
      (by decide)).1.2.1,
    (session_guard_does_not_stop_loaders sampleHost (Page.blank [] "dashboard.html")
      (by decide)).2.2.1⟩

/-! ## Loaders (C4) -/

/-- C4, evaluated on the code: in `loadPortfolio` of profile-script.js the
status of the `/instruments` response is never read. With an empty
portfolio and an `/instruments` response of any status (a 500, say) whose
body parses, the renderer is called and the table body is the
"No holdings yet" placeholder, not the error row. -/
theorem profile_loadPortfolio_ignores_instruments_status (host : Host) (status : Nat)
    (body : InstrumentsBody) (p : Page) :
    (Profile.loadPortfolio host (.ok ⟨200, .ok []⟩) (.ok ⟨status, .ok body⟩) p).calls
        = p.calls ++ [.loadPortfolio, .displayPortfolio]
    ∧ (Profile.loadPortfolio host (.ok ⟨200, .ok []⟩) (.ok ⟨status, .ok body⟩) p).innerHTML
        "portfolio-body" = "<tr><td colspan=\"5\" class=\"loading\">No holdings yet</td></tr>"
    ∧ (Profile.loadPortfolio host (.ok ⟨200, .ok []⟩) (.ok ⟨status, .ok body⟩) p).innerHTML
        "portfolio-body" ≠ (Profile.errorRow 5 "Failed to load portfolio").render := by
  have hc : (Profile.loadPortfolio host (.ok ⟨200, .ok []⟩) (.ok ⟨status, .ok body⟩) p).calls
      = p.calls ++ [.loadPortfolio, .displayPortfolio] := by
    simp [Profile.loadPortfolio, Profile.loadPortfolio.finish, Profile.loadPortfolio.start,
      Profile.displayPortfolio, Response.ok, Page.logCall, Page.fetch, Page.setInnerHTML,
      bind, Except.bind, pure, Except.pure]
  have hh : (Profile.loadPortfolio host (.ok ⟨200, .ok []⟩) (.ok ⟨status, .ok body⟩) p).innerHTML
      "portfolio-body" = "<tr><td colspan=\"5\" class=\"loading\">No holdings yet</td></tr>" := by
    simp [Profile.loadPortfolio, Profile.loadPortfolio.finish, Profile.loadPortfolio.start,
      Profile.displayPortfolio, Response.ok, Page.logCall, Page.fetch, Page.setInnerHTML,
      bind, Except.bind, pure, Except.pure]
    decide
  refine ⟨hc, hh, ?_⟩
  rw [hh]
  decide

/-- What does hold of the loaders: when the fetch a loader checks rejects or
is not `ok`, the loader logs no renderer call and sets its table body to the
error row with its own message (in script.js spanning the header count of
the table, in profile-script.js the literal column count). -/
theorem loaders_show_error_row (host : Host) (p : Page)
    (fi : Fetched (List Instrument)) (fo : Fetched (List Order)) (ft : Fetched (List Trade))
    (fp : Fetched (List Position)) (fq : Fetched InstrumentsBody)
    (hi : FetchFailed fi) (ho : FetchFailed fo) (ht : FetchFailed ft) (hp : FetchFailed fp) :
    ((Script.loadInstruments host fi p).calls = p.calls ++ [.loadInstruments]
      ∧ (Script.loadInstruments host fi p).innerHTML "instruments-body"
        = (Script.errorRow (p.thCount "instruments-body") "Failed to load instruments").render)
    ∧ ((Script.loadOrders host fo p).calls = p.calls ++ [.loadOrders]
      ∧ (Script.loadOrders host fo p).innerHTML "orders-body"
        = (Script.errorRow (p.thCount "orders-body") "Failed to load orders").render)
    ∧ ((Script.loadTrades host ft p).calls = p.calls ++ [.loadTrades]
      ∧ (Script.loadTrades host ft p).innerHTML "trades-body"
        = (Script.errorRow (p.thCount "trades-body") "Failed to load trades").render)
    ∧ ((Script.loadPortfolio host fp p).calls = p.calls ++ [.loadPortfolio]
      ∧ (Script.loadPortfolio host fp p).innerHTML "portfolio-body"
        = (Script.errorRow (p.thCount "portfolio-body") "Failed to load portfolio").render)
    ∧ ((Profile.loadOrders host fo p).calls = p.calls ++ [.loadOrders]
      ∧ (Profile.loadOrders host fo p).innerHTML "orders-body"
        = (Profile.errorRow 8 "Failed to load orders").render)
    ∧ ((Profile.loadTrades host ft p).calls = p.calls ++ [.loadTrades]
      ∧ (Profile.loadTrades host ft p).innerHTML "trades-body"
        = (Profile.errorRow 7 "Failed to load trades").render)
    ∧ ((Profile.loadPortfolio host fp fq p).calls = p.calls ++ [.loadPortfolio]
      ∧ (Profile.loadPortfolio host fp fq p).innerHTML "portfolio-body"
        = (Profile.errorRow 5 "Failed to load portfolio").render) := by
  refine ⟨?_, ?_, ?_, ?_, ?_, ?_, ?_⟩
  · cases fi with
    | error e =>
        simp [Script.loadInstruments, Script.loadInstruments.finish, Script.loadInstruments.start,
          Script.showError, Page.logCall, Page.fetch, Page.setInnerHTML, Page.consoleError,
          bind, Except.bind]
    | ok r =>
        have hr : r.ok = false := hi
        simp [Script.loadInstruments, Script.loadInstruments.finish, Script.loadInstruments.start,
          Script.showError, Page.logCall, Page.fetch, Page.setInnerHTML, Page.consoleError,
          bind, Except.bind, hr, throw, throwThe, MonadExceptOf.throw]
  · cases fo with
    | error e =>
        simp [Script.loadOrders, Script.loadOrders.finish, Script.loadOrders.start,
          Script.showError, Page.logCall, Page.fetch, Page.setInnerHTML, Page.consoleError,
          bind, Except.bind]
    | ok r =>
        have hr : r.ok = false := ho
        simp [Script.loadOrders, Script.loadOrders.finish, Script.loadOrders.start,
          Script.showError, Page.logCall, Page.fetch, Page.setInnerHTML, Page.consoleError,
          bind, Except.bind, hr, throw, throwThe, MonadExceptOf.throw]
  · cases ft with
    | error e =>
        simp [Script.loadTrades, Script.loadTrades.finish, Script.loadTrades.start,
          Script.showError, Page.logCall, Page.fetch, Page.setInnerHTML, Page.consoleError,
          bind, Except.bind]
    | ok r =>
        have hr : r.ok = false := ht
        simp [Script.loadTrades, Script.loadTrades.finish, Script.loadTrades.start,
          Script.showError, Page.logCall, Page.fetch, Page.setInnerHTML, Page.consoleError,
          bind, Except.bind, hr, throw, throwThe, MonadExceptOf.throw]
  · cases fp with
    | error e =>
        simp [Script.loadPortfolio, Script.loadPortfolio.finish, Script.loadPortfolio.start,
          Script.showError, Page.logCall, Page.fetch, Page.setInnerHTML, Page.consoleError,
          bind, Except.bind]
    | ok r =>
        have hr : r.ok = false := hp
        simp [Script.loadPortfolio, Script.loadPortfolio.finish, Script.loadPortfolio.start,
          Script.showError, Page.logCall, Page.fetch, Page.setInnerHTML, Page.consoleError,
          bind, Except.bind, hr, throw, throwThe, MonadExceptOf.throw]
  · cases fo with
    | error e =>
        simp [Profile.loadOrders, Profile.loadOrders.finish, Profile.loadOrders.start,
          Profile.showError, Page.logCall, Page.fetch, Page.setInnerHTML, Page.consoleError,
          bind, Except.bind]
    | ok r =>
        have hr : r.ok = false := ho
        simp [Profile.loadOrders, Profile.loadOrders.finish, Profile.loadOrders.start,
          Profile.showError, Page.logCall, Page.fetch, Page.setInnerHTML, Page.consoleError,
          bind, Except.bind, hr, throw, throwThe, MonadExceptOf.throw]
  · cases ft with
    | error e =>
        simp [Profile.loadTrades, Profile.loadTrades.finish, Profile.loadTrades.start,
          Profile.showError, Page.logCall, Page.fetch, Page.setInnerHTML, Page.consoleError,
          bind, Except.bind]
    | ok r =>
        have hr : r.ok = false := ht
        simp [Profile.loadTrades, Profile.loadTrades.finish, Profile.loadTrades.start,
          Profile.showError, Page.logCall, Page.fetch, Page.setInnerHTML, Page.consoleError,
          bind, Except.bind, hr, throw, throwThe, MonadExceptOf.throw]
  · cases fp with
    | error e =>
        simp [Profile.loadPortfolio, Profile.loadPortfolio.finish, Profile.loadPortfolio.start,
          Profile.showError, Page.logCall, Page.fetch, Page.setInnerHTML, Page.consoleError,
          bind, Except.bind]
    | ok r =>
        have hr : r.ok = false := hp
        simp [Profile.loadPortfolio, Profile.loadPortfolio.finish, Profile.loadPortfolio.start,
          Profile.showError, Page.logCall, Page.fetch, Page.setInnerHTML, Page.consoleError,
          bind, Except.bind, hr, throw, throwThe, MonadExceptOf.throw]

/-! ## Login and registration (C5, C6) -/

/-- C5: when the password and its confirmation differ, or the name, the
e-mail or the password is empty, `handleRegister` issues no request and
writes nothing to local storage: it sets the class and the text of the
register message to an error and schedules the clearing of that message,
and changes nothing else. -/
theorem handleRegister_invalid_no_request (host : Host) (name email password confirm : String)
    (fetched : Fetched Json) (p : Page)
    (h : password ≠ confirm ∨ name = "" ∨ email = "" ∨ password = "") :
    (Landing.handleRegister host name email password confirm fetched p).requests = p.requests
    ∧ (Landing.handleRegister host name email password confirm fetched p).storage = p.storage
    ∧ (Landing.handleRegister host name email password confirm fetched p).href = p.href
    ∧ (Landing.handleRegister host name email password confirm fetched p).className
        "register-message" = "message error"
    ∧ ((Landing.handleRegister host name email password confirm fetched p).textContent
          "register-message" = "Passwords do not match!"
        ∨ (Landing.handleRegister host name email password confirm fetched p).textContent
          "register-message" = "Please fill in all fields")
    ∧ (Landing.handleRegister host name email password confirm fetched p).timers
        = p.timers ++ [⟨5000, .clearMessage "register-message"⟩]
    ∧ (Landing.handleRegister host name email password confirm fetched p).innerHTML = p.innerHTML
    ∧ (Landing.handleRegister host name email password confirm fetched p).calls = p.calls := by
  by_cases hpc : password = confirm
  · have hf : name = "" ∨ email = "" ∨ password = "" := by
      rcases h with h | h
      · exact absurd hpc h
      · exact h
    simp [Landing.handleRegister, hpc, hf, Landing.showMessage, Page.setClassName,
      Page.setTextContent, Page.setTimeout]
    subst hpc
    simp [hf]
  · simp [Landing.handleRegister, hpc, Landing.showMessage, Page.setClassName,
      Page.setTextContent, Page.setTimeout]

/-- Witness of C5: a confirmation that differs from the password in its last
character. -/
theorem handleRegister_invalid_no_request_witness :
    ("secret" ≠ "secre7" ∨ "Asha" = "" ∨ "asha@example.com" = "" ∨ "secret" = "")
    ∧ (Landing.handleRegister sampleHost "Asha" "asha@example.com" "secret" "secre7"
        (.ok ⟨201, .ok (.obj [("id", .num 1)])⟩) (Page.blank [] "landing.html")).requests = []
    ∧ (Landing.handleRegister sampleHost "Asha" "asha@example.com" "secret" "secre7"
        (.ok ⟨201, .ok (.obj [("id", .num 1)])⟩) (Page.blank [] "landing.html")).storage = [] :=
  ⟨by decide,
    (handleRegister_invalid_no_request sampleHost "Asha" "asha@example.com" "secret" "secre7"
      (.ok ⟨201, .ok (.obj [("id", .num 1)])⟩) (Page.blank [] "landing.html") (by decide)).1,
    (handleRegister_invalid_no_request sampleHost "Asha" "asha@example.com" "secret" "secre7"
      (.ok ⟨201, .ok (.obj [("id", .num 1)])⟩) (Page.blank [] "landing.html") (by decide)).2.1⟩

theorem storeProp_requests {host : Host} {key prop : String} {data : Json} {p q : Page}
    (h : Landing.storeProp host key prop data p = .ok q) : q.requests = p.requests := by
  unfold Landing.storeProp at h
  cases hv : data.getProp host prop with
  | error e => simp [hv, bind, Except.bind] at h
  | ok value =>
      cases ht : toStrU host value with
      | error e => simp [hv, ht, bind, Except.bind] at h
      | ok text =>
          simp [hv, ht, bind, Except.bind, pure, Except.pure] at h
          rw [← h]

theorem showFailure_requests (formType fallback : String) (error : JsError) (p : Page) :
    (Landing.showFailure formType fallback error p).requests = p.requests := by
  simp [Landing.showFailure, Landing.showMessage, Page.setClassName, Page.setTextContent,
    Page.setTimeout]

theorem handleLogin_finish_requests (host : Host) (fetched : Fetched Json) (p : Page) :
    (Landing.handleLogin.finish host fetched p).requests = p.requests := by
  unfold Landing.handleLogin.finish
  dsimp only
  split
  · exact showFailure_requests _ _ _ _
  · split
    · exact showFailure_requests _ _ _ _
    · rename_i p1 h1
      split
      · rw [showFailure_requests, storeProp_requests h1]
      · rename_i p2 h2
        split
        · rw [showFailure_requests, storeProp_requests h2, storeProp_requests h1]
        · rename_i p3 h3
          simp [Landing.showMessage, Page.setClassName, Page.setTextContent, Page.setTimeout,
            storeProp_requests h3, storeProp_requests h2, storeProp_requests h1]

/-- C6, evaluated on the code: `handleLogin` checks neither field. Whatever
the e-mail and the password are, the empty string included, it issues the
POST to `/auth/login` with them. -/
theorem handleLogin_always_posts (host : Host) (email password : String)
    (fetched : Fetched Json) (p : Page) :
    (Landing.handleLogin host email password fetched p).requests = p.requests ++
        [⟨"POST", API_BASE_URL host ++ "/auth/login", [("Content-Type", "application/json")],
          some (.login email password)⟩]
    ∧ (Landing.handleLogin host "" "" fetched p).requests.length = p.requests.length + 1 := by
  constructor
  · rw [Landing.handleLogin, handleLogin_finish_requests]
    rfl
  · rw [Landing.handleLogin, handleLogin_finish_requests]
    simp [Landing.handleLogin.start, Page.fetch]

/-! ## Order submission (C7, C10) -/

theorem response_ok_iff {α : Type} (status : Nat) (json : Except JsError α) :
    (Response.ok ⟨status, json⟩ = true) ↔ (200 ≤ status ∧ status ≤ 299) := by
  simp [Response.ok]

/-- C7: when the POST of an order gets a 2xx response whose JSON body is an
object with an `id`, `handleOrderSubmit` shows the success message
`Order placed successfully! Order ID: ` followed by the text of that id (so
the message contains it), resets the form, and schedules, besides the
clearing of the message, one timer of 500 ms whose callback invokes
`loadOrders`, `loadPortfolio` and `loadTrades`, once each, and not
`loadInstruments`. -/
theorem handleOrderSubmit_success (host : Host) (form : Script.OrderForm) (status : Nat)
    (fields : List (String × Json)) (idValue : Json) (idText : String) (p : Page)
    (hstatus : 200 ≤ status ∧ status ≤ 299)
    (hid : lookupField "id" fields = some idValue)
    (htext : idValue.toStr host = .ok idText) :
    (Script.handleOrderSubmit host form (.ok ⟨status, .ok (.obj fields)⟩) p).className
        "order-message" = "message success"
    ∧ (Script.handleOrderSubmit host form (.ok ⟨status, .ok (.obj fields)⟩) p).textContent
        "order-message" = "Order placed successfully! Order ID: " ++ idText
    ∧ idText.toList <:+:
        ((Script.handleOrderSubmit host form (.ok ⟨status, .ok (.obj fields)⟩) p).textContent
          "order-message").toList
    ∧ (Script.handleOrderSubmit host form (.ok ⟨status, .ok (.obj fields)⟩) p).timers
        = p.timers ++ [⟨5000, .clearMessage "order-message"⟩,
            ⟨500, .invoke [.loadOrders, .loadPortfolio, .loadTrades]⟩]
    ∧ scheduledCalls
        ((Script.handleOrderSubmit host form (.ok ⟨status, .ok (.obj fields)⟩) p).timers.drop
          p.timers.length)
        = [(500, .loadOrders), (500, .loadPortfolio), (500, .loadTrades)]
    ∧ (Script.handleOrderSubmit host form (.ok ⟨status, .ok (.obj fields)⟩) p).formResets
        = p.formResets + 1 := by
  have hok : Response.ok (⟨status, .ok (.obj fields)⟩ : Response Json) = true :=
    (response_ok_iff status _).mpr hstatus
  have hrun : Script.handleOrderSubmit host form (.ok ⟨status, .ok (.obj fields)⟩) p =
      Page.setTimeout (.invoke [.loadOrders, .loadPortfolio, .loadTrades]) 500
        { Script.showMessage "success" ("Order placed successfully! Order ID: " ++ idText)
            (Script.handleOrderSubmit.start host form p) with
          formResets := (Script.handleOrderSubmit.start host form p).formResets + 1 } := by
    simp [Script.handleOrderSubmit, Script.handleOrderSubmit.finish, hok, Json.getProp, hid,
      toStrU, htext, bind, Except.bind, pure, Except.pure, Script.showMessage,
      Page.setClassName, Page.setTextContent, Page.setTimeout]
  rw [hrun]
  have htextContent : (Page.setTimeout (.invoke [.loadOrders, .loadPortfolio, .loadTrades]) 500
        { Script.showMessage "success" ("Order placed successfully! Order ID: " ++ idText)
            (Script.handleOrderSubmit.start host form p) with
          formResets := (Script.handleOrderSubmit.start host form p).formResets + 1 }).textContent
        "order-message" = "Order placed successfully! Order ID: " ++ idText := by
    simp [Script.showMessage, Page.setClassName, Page.setTextContent, Page.setTimeout]
  refine ⟨?_, htextContent, ?_, ?_, ?_, ?_⟩
  · simp [Script.showMessage, Page.setClassName, Page.setTextContent, Page.setTimeout]
  · rw [htextContent]
    simp only [String.toList, String.data_append]
    exact (List.suffix_append _ _).isInfix
  · simp [Script.showMessage, Page.setClassName, Page.setTextContent, Page.setTimeout,
      Script.handleOrderSubmit.start, Page.fetch]
  · simp [Script.showMessage, Page.setClassName, Page.setTextContent, Page.setTimeout,
      Script.handleOrderSubmit.start, Page.fetch, scheduledCalls]
  · simp [Script.showMessage, Page.setClassName, Page.setTextContent, Page.setTimeout,
      Script.handleOrderSubmit.start, Page.fetch]

/-- Witness of C7: a market buy of 5 TCS answered by 201 with `id` 42. -/
theorem handleOrderSubmit_success_witness :
    (200 ≤ 201 ∧ 201 ≤ 299)
    ∧ (Script.handleOrderSubmit sampleHost ⟨"TCS", "BUY", "MARKET", "5", ""⟩
        (.ok ⟨201, .ok (.obj [("id", .num 42)])⟩) (Page.blank [] "dashboard.html")).textContent
        "order-message" = "Order placed successfully! Order ID: " ++ "42"
    ∧ "42".toList <:+:
        ((Script.handleOrderSubmit sampleHost ⟨"TCS", "BUY", "MARKET", "5", ""⟩
          (.ok ⟨201, .ok (.obj [("id", .num 42)])⟩) (Page.blank [] "dashboard.html")).textContent
          "order-message").toList
    ∧ scheduledCalls
        ((Script.handleOrderSubmit sampleHost ⟨"TCS", "BUY", "MARKET", "5", ""⟩
          (.ok ⟨201, .ok (.obj [("id", .num 42)])⟩) (Page.blank [] "dashboard.html")).timers.drop
          (Page.blank [] "dashboard.html").timers.length)
        = [(500, .loadOrders), (500, .loadPortfolio), (500, .loadTrades)] :=
  ⟨by decide,
    (handleOrderSubmit_success sampleHost ⟨"TCS", "BUY", "MARKET", "5", ""⟩ 201
      [("id", .num 42)] (.num 42) "42" (Page.blank [] "dashboard.html") (by decide) rfl rfl).2.1,
    (handleOrderSubmit_success sampleHost ⟨"TCS", "BUY", "MARKET", "5", ""⟩ 201
      [("id", .num 42)] (.num 42) "42" (Page.blank [] "dashboard.html") (by decide) rfl
      rfl).2.2.1,
    (handleOrderSubmit_success sampleHost ⟨"TCS", "BUY", "MARKET", "5", ""⟩ 201
      [("id", .num 42)] (.num 42) "42" (Page.blank [] "dashboard.html") (by decide) rfl
      rfl).2.2.2.2.1⟩

theorem handleOrderSubmit_failure_run (host : Host) (form : Script.OrderForm) (status : Nat)
    (result : Json) (p : Page) (hstatus : ¬ (200 ≤ status ∧ status ≤ 299)) :
    Script.handleOrderSubmit host form (.ok ⟨status, .ok result⟩) p =
      Script.showMessage "error"
        (match errorMessage host "Failed to place order" result with
          | .ok m => m
          | .error e => e.message)
        ((Script.handleOrderSubmit.start host form p).consoleError "Error placing order:") := by
  have hok : Response.ok (⟨status, .ok result⟩ : Response Json) = false := by
    have h := response_ok_iff status (.ok result : Except JsError Json)
    cases hb : Response.ok (⟨status, .ok result⟩ : Response Json) with
    | false => rfl
    | true => exact absurd (h.mp hb) hstatus
  cases hm : errorMessage host "Failed to place order" result with
  | error e =>
      simp [Script.handleOrderSubmit, Script.handleOrderSubmit.finish, hok, hm, bind,
        Except.bind]
  | ok m =>
      simp [Script.handleOrderSubmit, Script.handleOrderSubmit.finish, hok, hm, bind,
        Except.bind, throw, throwThe, MonadExceptOf.throw]

/-- C10, as amended: when the POST of an order gets a non-2xx response with a
JSON body, `handleOrderSubmit` shows an error message, does not reset the
form and schedules no call of a loader (only the clearing of the message).
When `detail` can be read (the body is not `null`), the text is `detail`
itself when it is a non-empty string, the fallback `Failed to place order`
when it is absent or falsy (empty string, `null`, `false`, `0`), and
otherwise the string conversion of the truthy `detail`. -/
theorem handleOrderSubmit_failure (host : Host) (form : Script.OrderForm) (status : Nat)
    (result : Json) (p : Page) (hstatus : ¬ (200 ≤ status ∧ status ≤ 299)) :
    (Script.handleOrderSubmit host form (.ok ⟨status, .ok result⟩) p).className
        "order-message" = "message error"
    ∧ (Script.handleOrderSubmit host form (.ok ⟨status, .ok result⟩) p).formResets
        = p.formResets
    ∧ (Script.handleOrderSubmit host form (.ok ⟨status, .ok result⟩) p).timers
        = p.timers ++ [⟨5000, .clearMessage "order-message"⟩]
    ∧ scheduledCalls
        ((Script.handleOrderSubmit host form (.ok ⟨status, .ok result⟩) p).timers.drop
          p.timers.length) = []
    ∧ (∀ s, result.getProp host "detail" = .ok (some (.str s)) →
        (Script.handleOrderSubmit host form (.ok ⟨status, .ok result⟩) p).textContent
          "order-message" = if s ≠ "" then s else "Failed to place order")
    ∧ (result.getProp host "detail" = .ok none →
        (Script.handleOrderSubmit host form (.ok ⟨status, .ok result⟩) p).textContent
          "order-message" = "Failed to place order")
    ∧ (∀ d, result.getProp host "detail" = .ok (some d) → d.truthy = false →
        (Script.handleOrderSubmit host form (.ok ⟨status, .ok result⟩) p).textContent
          "order-message" = "Failed to place order")
    ∧ (∀ d t, result.getProp host "detail" = .ok (some d) → d.truthy = true →
        d.toStr host = .ok t →
        (Script.handleOrderSubmit host form (.ok ⟨status, .ok result⟩) p).textContent
          "order-message" = t) := by
  rw [handleOrderSubmit_failure_run host form status result p hstatus]
  refine ⟨?_, ?_, ?_, ?_, ?_, ?_, ?_, ?_⟩
  · simp [Script.showMessage, Page.setClassName, Page.setTextContent, Page.setTimeout]
  · simp [Script.showMessage, Page.setClassName, Page.setTextContent, Page.setTimeout,
      Page.consoleError, Script.handleOrderSubmit.start, Page.fetch]
  · simp [Script.showMessage, Page.setClassName, Page.setTextContent, Page.setTimeout,
      Page.consoleError, Script.handleOrderSubmit.start, Page.fetch]
  · simp [Script.showMessage, Page.setClassName, Page.setTextContent, Page.setTimeout,
      Page.consoleError, Script.handleOrderSubmit.start, Page.fetch, scheduledCalls]
  · intro s hs
    by_cases he : s = ""
    · simp [Script.showMessage, Page.setClassName, Page.setTextContent, Page.setTimeout,
        errorMessage, hs, bind, Except.bind, Json.truthy, he, pure, Except.pure]
    · simp [Script.showMessage, Page.setClassName, Page.setTextContent, Page.setTimeout,
        errorMessage, hs, bind, Except.bind, Json.truthy, he, Json.toStr]
  · intro hn
    simp [Script.showMessage, Page.setClassName, Page.setTextContent, Page.setTimeout,
      errorMessage, hn, bind, Except.bind, pure, Except.pure]
  · intro d hd hf
    simp [Script.showMessage, Page.setClassName, Page.setTextContent, Page.setTimeout,
      errorMessage, hd, hf, bind, Except.bind, pure, Except.pure]
  · intro d t hd ht hs
    simp [Script.showMessage, Page.setClassName, Page.setTextContent, Page.setTimeout,
      errorMessage, hd, ht, hs, bind, Except.bind]

/-- Witness of C10 as amended: a 400 whose `detail` is a string. -/
theorem handleOrderSubmit_failure_witness :
    ¬ (200 ≤ 400 ∧ 400 ≤ 299)
    ∧ (Script.handleOrderSubmit sampleHost ⟨"TCS", "SELL", "MARKET", "5", ""⟩
        (.ok ⟨400, .ok (.obj [("detail", .str "Insufficient holdings")])⟩)
        (Page.blank [] "dashboard.html")).textContent "order-message"
        = "Insufficient holdings"
    ∧ (Script.handleOrderSubmit sampleHost ⟨"TCS", "SELL", "MARKET", "5", ""⟩
        (.ok ⟨400, .ok (.obj [("detail", .str "Insufficient holdings")])⟩)
        (Page.blank [] "dashboard.html")).formResets = 0 :=
  ⟨by decide,
    (handleOrderSubmit_failure sampleHost ⟨"TCS", "SELL", "MARKET", "5", ""⟩ 400
      (.obj [("detail", .str "Insufficient holdings")]) (Page.blank [] "dashboard.html")
      (by decide)).2.2.2.2.1 "Insufficient holdings" rfl,
    (handleOrderSubmit_failure sampleHost ⟨"TCS", "SELL", "MARKET", "5", ""⟩ 400
      (.obj [("detail", .str "Insufficient holdings")]) (Page.blank [] "dashboard.html")
      (by decide)).2.1⟩

/-- C10 as stated fails: for a 422 response whose `detail` is an array
holding one error object, the message shown is `[object Object]`, which is
neither a `detail` string (the body has none) nor the fallback. -/
theorem handleOrderSubmit_failure_counterexample :
    (Script.handleOrderSubmit sampleHost ⟨"TCS", "BUY", "MARKET", "", ""⟩
        (.ok ⟨422, .ok validationErrorBody⟩) (Page.blank [] "dashboard.html")).textContent
        "order-message" = "[object Object]"
    ∧ specOrderErrorText validationErrorBody = "Failed to place order"
    ∧ (Script.handleOrderSubmit sampleHost ⟨"TCS", "BUY", "MARKET", "", ""⟩
        (.ok ⟨422, .ok validationErrorBody⟩) (Page.blank [] "dashboard.html")).textContent
        "order-message" ≠ specOrderErrorText validationErrorBody := by
  decide

/-! ## Logout (C8, C9) -/

theorem getItem_removeItem (key k : String) (s : Storage) :
    getItem k (removeItem key s) = if k = key then none else getItem k s := by
  induction s with
  | nil => simp [removeItem, getItem]
  | cons kv rest ih =>
      obtain ⟨a, b⟩ := kv
      have ih2 : getItem k (List.filter (fun kv => kv.1 != key) rest)
          = if k = key then none else getItem k rest := ih
      simp only [removeItem, List.filter_cons]
      by_cases ha : a = key <;> by_cases hak : a = k <;> by_cases hk : k = key <;>
        simp_all [getItem]

theorem logout_storage (s : Storage) :
    removeItem "userId" (removeItem "userName" (removeItem "userEmail"
      (removeItem "isLoggedIn" s))) = s.filter (fun kv => decide (kv.1 ∉ sessionKeys)) := by
  simp only [removeItem, List.filter_filter]
  apply List.filter_congr
  intro kv _
  rw [Bool.eq_iff_iff]
  simp [sessionKeys]
  tauto

theorem logout_getItem (k : String) (s : Storage) :
    getItem k (removeItem "userId" (removeItem "userName" (removeItem "userEmail"
      (removeItem "isLoggedIn" s)))) = if k ∈ sessionKeys then none else getItem k s := by
  simp only [getItem_removeItem, sessionKeys, List.mem_cons, List.mem_singleton, List.mem_nil_iff,
    or_false]
  by_cases h1 : k = "userId" <;> by_cases h2 : k = "userName" <;>
    by_cases h3 : k = "userEmail" <;> by_cases h4 : k = "isLoggedIn" <;> simp [h1, h2, h3, h4]

/-- C8: `handleLogout` of script.js and of profile-script.js leaves none of
`isLoggedIn`, `userEmail`, `userName`, `userId` in local storage and leaves
every other key with its value (the storage is the old one without the
entries of the four keys); it sets the location to `index.html`; and it is
idempotent: a second call changes nothing, so storage and redirect target
are the same after two calls as after one. -/
theorem handleLogout_clears_session (p : Page) :
    ((∀ k, getItem k (Script.handleLogout p).storage
        = if k ∈ sessionKeys then none else getItem k p.storage)
      ∧ (Script.handleLogout p).storage
        = p.storage.filter (fun kv => decide (kv.1 ∉ sessionKeys))
      ∧ (Script.handleLogout p).href = "index.html"
      ∧ Script.handleLogout (Script.handleLogout p) = Script.handleLogout p)
    ∧ ((∀ k, getItem k (Profile.handleLogout p).storage
        = if k ∈ sessionKeys then none else getItem k p.storage)
      ∧ (Profile.handleLogout p).storage
        = p.storage.filter (fun kv => decide (kv.1 ∉ sessionKeys))
      ∧ (Profile.handleLogout p).href = "index.html"
      ∧ Profile.handleLogout (Profile.handleLogout p) = Profile.handleLogout p) := by
  have hs : ∀ q : Page, Script.handleLogout q =
      { q with storage := q.storage.filter (fun kv => decide (kv.1 ∉ sessionKeys)),
               href := "index.html" } := by
    intro q
    simp only [Script.handleLogout, logout_storage]
  have hp : ∀ q : Page, Profile.handleLogout q =
      { q with storage := q.storage.filter (fun kv => decide (kv.1 ∉ sessionKeys)),
               href := "index.html" } := by
    intro q
    simp only [Profile.handleLogout, logout_storage]
  refine ⟨⟨?_, ?_, ?_, ?_⟩, ⟨?_, ?_, ?_, ?_⟩⟩
  · intro k
    simp only [Script.handleLogout, logout_getItem]
  · rw [hs]
  · rw [hs]
  · rw [hs (Script.handleLogout p), hs p]
    simp [List.filter_filter]
  · intro k
    simp only [Profile.handleLogout, logout_getItem]
  · rw [hp]
  · rw [hp]
  · rw [hp (Profile.handleLogout p), hp p]
    simp [List.filter_filter]

/-- C9, evaluated on the code: in script.js `handleLogout` and the session
guard both go to `index.html`; in profile-script.js `handleLogout` goes to
`index.html` while the session guard, run on the storage that logout
leaves, goes to `landing.html`. -/
theorem profile_logout_target_differs_from_guard (p : Page) :
    ((Script.handleLogout p).href = "index.html"
      ∧ (Script.windowDOMContentLoaded (Script.handleLogout p)).href = "index.html")
    ∧ ((Profile.handleLogout p).href = "index.html"
      ∧ (Profile.windowDOMContentLoaded (Profile.handleLogout p)).href = "landing.html")
    ∧ (Profile.handleLogout p).href
        ≠ (Profile.windowDOMContentLoaded (Profile.handleLogout p)).href := by
  have hs : getItem "isLoggedIn" (Script.handleLogout p).storage = none := by
    simp only [Script.handleLogout, logout_getItem]
    simp [sessionKeys]
  have hp : getItem "isLoggedIn" (Profile.handleLogout p).storage = none := by
    simp only [Profile.handleLogout, logout_getItem]
    simp [sessionKeys]
  have h1 : (Script.windowDOMContentLoaded (Script.handleLogout p)).href = "index.html" := by
    simp [Script.windowDOMContentLoaded, hs]
  have h2 : (Profile.windowDOMContentLoaded (Profile.handleLogout p)).href = "landing.html" := by
    simp [Profile.windowDOMContentLoaded, hp]
  have h3 : (Profile.handleLogout p).href = "index.html" := rfl
  refine ⟨⟨rfl, h1⟩, ⟨h3, h2⟩, ?_⟩
  rw [h2, h3]
  decide

/-! ## The body of an order (C11) -/

/-- Three rows evaluated in the sample browser: TCS held at 3400 and traded
at 3500 (the first of two TCS instruments counts), traded at 3300, and not
listed at all. -/
theorem profile_portfolio_row_values_examples :
    (Profile.portfolioRow sampleHost
        (.array [⟨"INFY", "NSE", "EQUITY", 1500⟩, ⟨"TCS", "NSE", "EQUITY", 3500⟩,
          ⟨"TCS", "BSE", "EQUITY", 3300⟩])
        ⟨"TCS", 5, 3400, 0⟩).toOption.map Template.subs
      = some ["TCS", "5", "3400.00", "17500.00", "profit", "+", "500.00"]
    ∧ (Profile.portfolioRow sampleHost (.array [⟨"TCS", "BSE", "EQUITY", 3300⟩])
        ⟨"TCS", 5, 3400, 0⟩).toOption.map Template.subs
      = some ["TCS", "5", "3400.00", "16500.00", "loss", "", "-500.00"]
    ∧ (Profile.portfolioRow sampleHost (.array [⟨"INFY", "NSE", "EQUITY", 1500⟩])
        ⟨"TCS", 5, 3400, 0⟩).toOption.map Template.subs
      = some ["TCS", "5", "3400.00", "17000.00", "profit", "+", "0.00"] := by
  refine ⟨?_, ?_, ?_⟩
  · simp [Profile.portfolioRow, Profile.findInstrument, Profile.portfolioCells, Template.subs,
      sampleHost, bind, Except.bind, pure, Except.pure, Except.toOption]
    norm_num
    decide
  · simp [Profile.portfolioRow, Profile.findInstrument, Profile.portfolioCells, Template.subs,
      sampleHost, bind, Except.bind, pure, Except.pure, Except.toOption]
    norm_num
    decide
  · simp [Profile.portfolioRow, Profile.findInstrument, Profile.portfolioCells, Template.subs,
      sampleHost, bind, Except.bind, pure, Except.pure, Except.toOption]
    norm_num
    decide

end SimplyTrade
